import Mathlib

/-!
Shallow embedding of the command execution and security-validation core of
mcp-mobile-server: the `SecurityValidator` (src/utils/security.ts), the
`ProcessExecutor` (src/utils/process.ts) and the process-lifecycle tracking
used by the long-running tool handlers (src/tools/android.ts, ios.ts,
flutter.ts) together with the health snapshot in src/server.ts.

Strings are Lean `String`s; JavaScript `Map` objects are association lists
in insertion order; thrown errors are `Except.error` carrying the thrown
message; the `execa` subprocess library and Node I/O are oracles passed as
explicit parameters.
-/

namespace MCPMobile

/-- Executable substring test on character lists. -/
def hasSubstr (s sub : List Char) : Bool := s.tails.any (fun t => sub.isPrefixOf t)

/-- JavaScript `String.prototype.includes(sub)` (case-sensitive substring test). -/
def jsIncludes (s sub : String) : Bool := hasSubstr s.data sub.data

/-- JavaScript `String.prototype.startsWith(pre)`. -/
def jsStartsWith (s pre : String) : Bool := pre.data.isPrefixOf s.data

/-- JavaScript `String.prototype.endsWith(suf)`. -/
def jsEndsWith (s suf : String) : Bool := suf.data.isSuffixOf s.data

/-- JavaScript `String.prototype.toLowerCase()` (ASCII, as used on file
extensions). -/
def jsToLower (s : String) : String := ⟨s.data.map Char.toLower⟩

/-- JavaScript `String.prototype.split(sep)` for a single-character
separator, on character lists. -/
def splitOnChar (sep : Char) : List Char → List (List Char)
  | [] => [[]]
  | c :: rest =>
    let r := splitOnChar sep rest
    if c = sep then [] :: r
    else
      match r with
      | g :: gs => (c :: g) :: gs
      | [] => [[c]]

/-- Code points matched by the JavaScript regex class `\s` (besides the
U+2000–U+200A range, tested separately). -/
def jsSpaceCodes : List Nat :=
  [9, 10, 11, 12, 13, 32, 160, 0x1680, 0x2028, 0x2029, 0x202f, 0x205f, 0x3000, 0xfeff]

/-- Whether a character is matched by the JavaScript regex class `\s`. -/
def isJsSpace (c : Char) : Bool :=
  jsSpaceCodes.contains c.toNat || (0x2000 ≤ c.toNat && c.toNat ≤ 0x200a)

/-! ## DANGEROUS_PATTERNS (src/utils/security.ts lines 32–39)

Each JS regex is embedded as a decidable test on the subject string; `src`
is the regex's `source` text, which the validator interpolates into the
thrown message. -/

/-- The character class `[;&|`$(){}[\]]` of the shell-metacharacter pattern. -/
def shellMetaChars : List Char :=
  [';', '&', '|', Char.ofNat 96, '$', '(', ')', Char.ofNat 123, Char.ofNat 125, '[', ']']

/-- Test of `/[;&|`$(){}[\]]/`: the string contains a shell metacharacter. -/
def testMeta (s : String) : Bool := s.data.any (fun c => shellMetaChars.contains c)

/-- Test of `/\.\./`: the string contains the substring `..`. -/
def testDotDot (s : String) : Bool := hasSubstr s.data "..".data

/-- Test of `/\/etc\/|\/proc\/|\/sys\//`. -/
def testSysDirs (s : String) : Bool :=
  hasSubstr s.data "/etc/".data || hasSubstr s.data "/proc/".data ||
    hasSubstr s.data "/sys/".data

/-- Whether `/rm\s+-rf/` matches starting at the head of the character list:
`rm`, then at least one `\s` character, then `-rf`. -/
def rmRfAt : List Char → Bool
  | 'r' :: 'm' :: rest =>
      (match rest with
       | c :: _ => isJsSpace c
       | [] => false) &&
      "-rf".data.isPrefixOf (rest.dropWhile isJsSpace)
  | _ => false

/-- Test of `/rm\s+-rf/`. -/
def testRmRf (s : String) : Bool := s.data.tails.any rmRfAt

/-- Whether `su\s` matches starting at the head of the character list. -/
def suAt : List Char → Bool
  | 's' :: 'u' :: c :: _ => isJsSpace c
  | _ => false

/-- Test of `/sudo|su\s/`. -/
def testSudoSu (s : String) : Bool :=
  hasSubstr s.data "sudo".data || s.data.tails.any suAt

/-- Whether `>\s*\/` matches starting at the head of the character list. -/
def redirAt : List Char → Bool
  | '>' :: rest => "/".data.isPrefixOf (rest.dropWhile isJsSpace)
  | _ => false

/-- Test of `/>\s*\/|>>/`. -/
def testRedirect (s : String) : Bool :=
  s.data.tails.any redirAt || hasSubstr s.data ">>".data

/-- A JS regex of the denylist: its `source` text and its match test. -/
structure JsPattern where
  src : String
  test : String → Bool

/-- The `DANGEROUS_PATTERNS` array, in source order. -/
def DANGEROUS_PATTERNS : List JsPattern :=
  [⟨"[;&|`$()\x7b\x7d[\\]]", testMeta⟩,
   ⟨"\\.\\.", testDotDot⟩,
   ⟨"\\/etc\\/|\\/proc\\/|\\/sys\\/", testSysDirs⟩,
   ⟨"rm\\s+-rf", testRmRf⟩,
   ⟨"sudo|su\\s", testSudoSu⟩,
   ⟨">\\s*\\/|>>", testRedirect⟩]

/-! ## SecurityConfig and SecurityValidator (src/utils/security.ts) -/

/-- `SecurityConfig` (src/types/index.ts). -/
structure SecurityConfig where
  allowedCommands : List String
  maxExecutionTime : Nat
  maxOutputSize : Nat

/-- `DEFAULT_SECURITY_CONFIG` (src/utils/security.ts lines 4–29). -/
def DEFAULT_SECURITY_CONFIG : SecurityConfig where
  allowedCommands :=
    ["adb", "sdkmanager", "avdmanager", "emulator", "gradle", "gradlew",
     "gradlew.bat", "lint", "native-run", "xcrun", "xcodebuild", "simctl",
     "flutter", "which", "ls"]
  maxExecutionTime := 300000
  maxOutputSize := 10 * 1024 * 1024

/-- The `safeAdbCommands` list of `validateAdbCommand`. -/
def safeAdbCommands : List String :=
  ["devices", "install", "uninstall", "shell", "logcat", "push", "pull", "version"]

/-- `SecurityValidator.validateAdbCommand` (src/utils/security.ts lines 88–115).
The JS guard `if (subCommand && ...)` treats the empty string as falsy. -/
def validateAdbCommand (args : List String) : Except String Unit :=
  match args with
  | [] => .ok ()
  | subCommand :: rest =>
    if subCommand ≠ "" && !safeAdbCommands.contains subCommand then
      .error ("ADB subcommand '" ++ subCommand ++ "' is not allowed")
    else if subCommand = "shell" then
      let shellCommand := String.intercalate " " rest
      if DANGEROUS_PATTERNS.any (fun p => p.test shellCommand) then
        .error "Dangerous shell command detected"
      else .ok ()
    else .ok ()

/-- The `safeArgs` list of `validateEmulatorCommand`. -/
def safeEmulatorArgs : List String :=
  ["-list-avds", "-avd", "-no-window", "-port", "-gpu"]

/-- The JS expression `arg.split('=')[0] || arg`: the prefix before the
first `=` when it is nonempty, else the whole argument. -/
def emulatorArgKey (arg : String) : String :=
  let h : String := ⟨(splitOnChar '=' arg.data).headD []⟩
  if h = "" then arg else h

/-- `SecurityValidator.validateEmulatorCommand` (src/utils/security.ts lines 117–126):
the first flag-shaped argument outside the safe set throws. -/
def validateEmulatorCommand : List String → Except String Unit
  | [] => .ok ()
  | arg :: rest =>
    if jsStartsWith arg "-" && !safeEmulatorArgs.contains (emulatorArgKey arg) then
      .error ("Emulator argument '" ++ arg ++ "' is not allowed")
    else validateEmulatorCommand rest

/-- The `safeFlutterCommands` list of `validateFlutterCommand`. -/
def safeFlutterCommands : List String :=
  ["doctor", "devices", "emulators", "run", "build", "test", "clean", "pub",
   "create", "analyze"]

/-- The `safeFlutterFlags` list of `validateFlutterCommand`. -/
def safeFlutterFlags : List String :=
  ["--version", "--machine", "--verbose", "--no-version-check", "--suppress-analytics"]

/-- `SecurityValidator.validateFlutterCommand` (src/utils/security.ts lines 128–171). -/
def validateFlutterCommand (args : List String) : Except String Unit :=
  match args with
  | [] => .ok ()
  | subCommand :: _ =>
    if subCommand = "" then .ok ()
    else if jsStartsWith subCommand "--" then
      if !safeFlutterFlags.contains subCommand then
        .error ("Flutter flag '" ++ subCommand ++ "' is not allowed")
      else .ok ()
    else if !safeFlutterCommands.contains subCommand then
      .error ("Flutter subcommand '" ++ subCommand ++ "' is not allowed")
    else .ok ()

/-- `SecurityValidator.validateCommandSpecific` (src/utils/security.ts lines 71–84). -/
def validateCommandSpecific (command : String) (args : List String) : Except String Unit :=
  if command = "adb" then validateAdbCommand args
  else if command = "emulator" then validateEmulatorCommand args
  else if command = "flutter" then validateFlutterCommand args
  else .ok ()

/-- `SecurityValidator.validateCommand` (src/utils/security.ts lines 48–68):
allowlist membership, then the denylist over the space-joined command line,
then command-specific rules.  A thrown error is `Except.error` of the message. -/
def validateCommand (cfg : SecurityConfig) (command : String) (args : List String) :
    Except String Unit :=
  if !cfg.allowedCommands.contains command then
    .error ("Command '" ++ command ++ "' is not allowed")
  else
    let fullCommand := String.intercalate " " (command :: args)
    match DANGEROUS_PATTERNS.find? (fun p => p.test fullCommand) with
    | some p => .error ("Command contains dangerous pattern: " ++ p.src)
    | none => validateCommandSpecific command args

/-- `SecurityValidator.validatePath` (src/utils/security.ts lines 183–195). -/
def validatePath (path : String) : Except String Unit :=
  if jsIncludes path ".." then
    .error "Directory traversal attempt detected"
  else if jsStartsWith path "/etc/" || jsStartsWith path "/proc/" || jsStartsWith path "/sys/" then
    .error "Access to system directories is not allowed"
  else .ok ()

/-- Global replacement `replace(/\.\./g, '')`: leftmost non-overlapping
matches of `..` are deleted, scanning left to right. -/
def removeDotDot : List Char → List Char
  | '.' :: '.' :: rest => removeDotDot rest
  | c :: rest => c :: removeDotDot rest
  | [] => []

/-- Global replacement `replace(/\/+/g, '/')`: every maximal run of slashes
becomes a single slash. -/
def collapseSlashes : List Char → List Char
  | [] => []
  | [c] => [c]
  | c1 :: c2 :: rest =>
    if c1 = '/' && c2 = '/' then collapseSlashes (c2 :: rest)
    else c1 :: collapseSlashes (c2 :: rest)
termination_by l => l.length

/-- `SecurityValidator.sanitizePath` (src/utils/security.ts lines 174–180):
strip `..`, collapse repeated slashes, strip the leading run of slashes. -/
def sanitizePath (path : String) : String :=
  ⟨(collapseSlashes (removeDotDot path.data)).dropWhile (· = '/')⟩

/-! ## ProcessExecutor (src/utils/process.ts)

`execa` and wall-clock time are outside the repository; they enter the model
as explicit parameters: a `SpawnWorld` describing how the `execa` promise
settles, and a `duration` number. -/

/-- `CommandResult` (src/types/index.ts). -/
structure CommandResult where
  stdout : String
  stderr : String
  exitCode : Int
  duration : Nat
deriving DecidableEq, Repr

/-- The options object of `ProcessExecutor.execute`. -/
structure ExecOptions where
  cwd : Option String := none
  timeout : Option Nat := none
  maxOutputSize : Option Nat := none
  env : List (String × String) := []

/-- The options object of `ProcessExecutor.executeStream` (no output cap). -/
structure StreamOptions where
  cwd : Option String := none
  timeout : Option Nat := none
  env : List (String × String) := []

/-- How the awaited `execa` promise settles. -/
inductive SpawnWorld where
  /-- The promise resolves with these raw stream contents and exit code. -/
  | resolved (stdout stderr : String) (exitCode : Int)
  /-- The promise rejects with an `Error` whose message is `msg`. -/
  | rejected (msg : String)

/-- JavaScript `v || d` for an optional numeric option: `0` and `undefined`
both fall back to the default. -/
def jsOrDefault (v : Option Nat) (d : Nat) : Nat :=
  match v with
  | some n => if n = 0 then d else n
  | none => d

/-- Modelled from the spec: the `execa` `maxBuffer` contract — captured
`stdout`/`stderr` are truncated, never exceeding the configured byte cap
(`execa` itself is not part of this repository). -/
def truncateTo (n : Nat) (s : String) : String := ⟨s.data.take n⟩

/-- The `catch` block of `ProcessExecutor.execute` (src/utils/process.ts
lines 62–88), applied to the caught error's message: timeout and killed
messages become fresh thrown errors, security messages are rethrown, and
anything else becomes an `exitCode = 1` result. -/
def executeCatch (cfg : SecurityConfig) (options : ExecOptions) (msg : String)
    (duration : Nat) : Except String CommandResult :=
  if jsIncludes msg "timeout" then
    .error ("Command timed out after " ++
      toString (jsOrDefault options.timeout cfg.maxExecutionTime) ++ "ms")
  else if jsIncludes msg "killed" then
    .error "Command was killed due to resource limits"
  else if jsIncludes msg "not allowed" || jsIncludes msg "dangerous" then
    .error msg
  else
    .ok ⟨"", msg, 1, duration⟩

/-- The validation prefix of both executor entry points: `validateCommand`,
then `validatePath` on `options.cwd` when present. -/
def validateAll (cfg : SecurityConfig) (command : String) (args : List String)
    (cwd : Option String) : Except String Unit :=
  match validateCommand cfg command args with
  | .error e => .error e
  | .ok () =>
    match cwd with
    | some c => validatePath c
    | none => .ok ()

/-- Outcome of one `execute` call: the returned/thrown value plus whether the
`execa` spawn was reached. -/
structure ExecuteOutcome where
  result : Except String CommandResult
  spawned : Bool
deriving Repr

/-- `ProcessExecutor.execute` (src/utils/process.ts lines 16–88).  Validation
runs inside the `try`, so a validation throw flows through `executeCatch`;
the spawn is reached only after both validations pass.  `execa` is called
with `reject: false` and `maxBuffer = maxOutputSize`, so a resolved world
yields a plain result with capped output. -/
def execute (cfg : SecurityConfig) (command : String) (args : List String)
    (options : ExecOptions) (world : SpawnWorld) (duration : Nat) : ExecuteOutcome :=
  match validateAll cfg command args options.cwd with
  | .error e => ⟨executeCatch cfg options e duration, false⟩
  | .ok () =>
    let maxOutputSize := jsOrDefault options.maxOutputSize cfg.maxOutputSize
    match world with
    | .resolved out err code =>
        ⟨.ok ⟨truncateTo maxOutputSize out, truncateTo maxOutputSize err, code, duration⟩, true⟩
    | .rejected msg => ⟨executeCatch cfg options msg duration, true⟩

/-- One `data` event on a child stream: `isStdout` tags the stream. -/
structure StreamChunk where
  isStdout : Bool
  data : String

/-- The accumulated value of `stdout += data` over the stdout chunks. -/
def streamAccum (isStdout : Bool) (chunks : List StreamChunk) : String :=
  ((chunks.filter (fun c => c.isStdout = isStdout)).map (fun c => c.data)).foldl
    (fun a b => a ++ b) ""

/-- `ProcessExecutor.executeStream` (src/utils/process.ts lines 93–164):
validation runs before the `try`, so its throw propagates raw to the caller;
chunks are accumulated without any size cap (`buffer: false`, no
`maxBuffer`); a rejection is converted into an `exitCode = 1` result whose
`stderr` is the error message. -/
def executeStream (cfg : SecurityConfig) (command : String) (args : List String)
    (options : StreamOptions) (chunks : List StreamChunk) (world : SpawnWorld)
    (duration : Nat) : Except String CommandResult :=
  match validateAll cfg command args options.cwd with
  | .error e => .error e
  | .ok () =>
    let stdout := streamAccum true chunks
    let stderr := streamAccum false chunks
    match world with
    | .resolved _ _ code => .ok ⟨stdout, stderr, code, duration⟩
    | .rejected msg => .ok ⟨stdout, msg, 1, duration⟩

/-! ## Process lifecycle tracking (src/tools/android.ts, ios.ts, flutter.ts,
src/server.ts)

A JavaScript `Map` is an association list in insertion order: `set` updates
in place or appends, `delete` removes the entry, `entries` iterates the
list. -/

/-- `Map.prototype.get` on a string-keyed JS `Map` held as an association
list in insertion order. -/
def mapGet {α : Type} (m : List (String × α)) (k : String) : Option α :=
  match m with
  | [] => none
  | (k', v) :: rest => if k' = k then some v else mapGet rest k

/-- `Map.prototype.has`. -/
def mapHas {α : Type} (m : List (String × α)) (k : String) : Bool :=
  (mapGet m k).isSome

/-- `Map.prototype.set`: update in place, else append. -/
def mapSet {α : Type} (m : List (String × α)) (k : String) (v : α) :
    List (String × α) :=
  match m with
  | [] => [(k, v)]
  | (k', v') :: rest => if k' = k then (k, v) :: rest else (k', v') :: mapSet rest k v

/-- `Map.prototype.delete`. -/
def mapDelete {α : Type} (m : List (String × α)) (k : String) : List (String × α) :=
  match m with
  | [] => []
  | (k', v') :: rest => if k' = k then rest else (k', v') :: mapDelete rest k

/-- A JS `Map<string, number>` (pid tracking). -/
abbrev PMap := List (String × Nat)

/-- A tracked Flutter session value (src/tools/flutter.ts line 8). -/
structure FlutterSession where
  pid : Nat
  deviceId : String
  projectPath : String
deriving DecidableEq, Repr

/-- The module-level `runningFlutterSessions` map. -/
abbrev FMap := List (String × FlutterSession)

/-! ## Long-running tool handlers

Each handler is modelled after its Zod `safeParse` gate; filesystem and OS
effects (`process.kill` success, `fs.mkdir`, `path.normalize`,
`validateFlutterProject`) are oracle parameters.  A handler returns its
response object (`Except.ok` — every returned object carries
`success: true`) or the thrown error message (`Except.error`), the map
after the call, and whether a child process was spawned. -/

/-- Status strings of the tracked-process handler responses. -/
inductive TrackStatus where
  | started
  | already_running
  | recording_started
  | stopped
  | already_stopped
deriving DecidableEq, Repr

/-- The tracking-relevant fields of a handler's success payload. -/
structure ToolResponse where
  key : String
  pid : Option Nat
  status : TrackStatus
deriving DecidableEq, Repr

/-- Outcome of a handler call against the pid map. -/
structure TrackerOutcome where
  result : Except String ToolResponse
  map : PMap
  spawned : Bool
deriving Repr

/-- `android_start_emulator` handler (src/tools/android.ts lines 386–447):
an already-tracked AVD name returns `already_running` with the tracked pid
and spawns nothing; otherwise it spawns, tracks the new pid, and returns
`started`. -/
def androidStartEmulator (m : PMap) (avdName : String) (newPid : Nat) : TrackerOutcome :=
  if mapHas m avdName then
    ⟨.ok ⟨avdName, mapGet m avdName, .already_running⟩, m, false⟩
  else
    ⟨.ok ⟨avdName, some newPid, .started⟩, mapSet m avdName newPid, true⟩

/-- `android_stop_emulator` handler (src/tools/android.ts lines 449–501):
`killOk` is whether `process.kill(pid, 'SIGTERM')` returns without throwing;
the JS guard `if (!pid)` also fires on a tracked pid of `0`. -/
def androidStopEmulator (m : PMap) (avdName : String) (killOk : Bool) : TrackerOutcome :=
  match mapGet m avdName with
  | none =>
    ⟨.error ("Emulator is not running or not tracked by this server. No running emulator found for AVD: " ++ avdName), m, false⟩
  | some pid =>
    if pid = 0 then
      ⟨.error ("Emulator is not running or not tracked by this server. No running emulator found for AVD: " ++ avdName), m, false⟩
    else if killOk then
      ⟨.ok ⟨avdName, some pid, .stopped⟩, mapDelete m avdName, false⟩
    else
      ⟨.ok ⟨avdName, some pid, .already_stopped⟩, mapDelete m avdName, false⟩

/-- The `exit` callback installed on a spawned tracked process: the OS exit
notification removes the key from the map. -/
def onTrackedExit (m : PMap) (key : String) : PMap := mapDelete m key

/-- Hex-digit test of the UDID regex character class `[A-F0-9]` under the
`/i` flag. -/
def isUdidChar (c : Char) : Bool :=
  ('A' ≤ c && c ≤ 'F') || ('a' ≤ c && c ≤ 'f') || ('0' ≤ c && c ≤ '9')

/-- `validateUDID` (src/tools/ios.ts lines 52–55): the anchored regex
`^[A-F0-9]{8}-[A-F0-9]{4}-[A-F0-9]{4}-[A-F0-9]{4}-[A-F0-9]{12}$/i` as the
equivalent group-length check. -/
def validateUDID (udid : String) : Bool :=
  match splitOnChar '-' udid.data with
  | [a, b, c, d, e] =>
    a.length = 8 && b.length = 4 && c.length = 4 && d.length = 4 && e.length = 12 &&
      (a ++ b ++ c ++ d ++ e).all isUdidChar
  | _ => false

/-- JS template interpolation of `Map.prototype.get`'s result. -/
def jsNumOpt : Option Nat → String
  | some n => toString n
  | none => "undefined"

/-- The `dangerousPaths` prefixes of the `ios_record_video` handler. -/
def dangerousMacPaths : List String := ["/etc", "/usr", "/System", "/private", "/var"]

/-- The `allowedExtensions` of the `ios_record_video` handler. -/
def allowedVideoExtensions : List String := [".mov", ".mp4"]

/-- `ios_record_video` handler (src/tools/ios.ts lines 419–525): after the
platform and UDID checks, an already-tracked UDID THROWS
"Recording already active …" (it does not return a success payload);
otherwise the path, extension, duration and mkdir checks run, and on success
the recording is spawned and tracked.  `normalizedPath` is the oracle result
of Node's `path.normalize(videoPath)`, `extnameRaw` of
`path.extname(videoPath)`, and `mkdirOk` of the `fs.mkdir` call. -/
def iosRecordVideo (isDarwin : Bool) (m : PMap) (udid videoPath : String)
    (duration : Nat) (normalizedPath extnameRaw : String) (mkdirOk : Bool)
    (newPid : Nat) : TrackerOutcome :=
  if !isDarwin then
    ⟨.error "iOS development tools only work on macOS.", m, false⟩
  else if !validateUDID udid then
    ⟨.error ("Invalid simulator UDID format. UDID must be in format XXXXXXXX-XXXX-XXXX-XXXX-XXXXXXXXXXXX: " ++ udid), m, false⟩
  else if mapHas m udid then
    ⟨.error ("Recording already active for this simulator. Active recording PID: " ++ jsNumOpt (mapGet m udid)), m, false⟩
  else if !jsStartsWith videoPath "/" then
    ⟨.error ("Video path must be absolute. Path must start with /: " ++ videoPath), m, false⟩
  else if dangerousMacPaths.any (fun d => jsStartsWith normalizedPath d) then
    ⟨.error ("Access to this path is not allowed. Path access denied for security reasons: " ++ normalizedPath), m, false⟩
  else if !allowedVideoExtensions.contains (jsToLower extnameRaw) then
    ⟨.error ("Video file must have video extension. Allowed extensions: .mov, .mp4. Got: " ++ jsToLower extnameRaw), m, false⟩
  else if duration < 1 || duration > 300 then
    ⟨.error "Duration must be between 1 and 300 seconds.", m, false⟩
  else if !mkdirOk then
    ⟨.error "Failed to create video directory.", m, false⟩
  else
    ⟨.ok ⟨udid, some newPid, .recording_started⟩, mapSet m udid newPid, true⟩

/-- Outcome of a Flutter handler call against the session map. -/
structure FlutterOutcome where
  result : Except String ToolResponse
  map : FMap
  spawned : Bool
deriving Repr

/-- `flutter_run` handler (src/tools/flutter.ts lines 306–410):
`projectCheck` is the oracle outcome of the filesystem-based
`validateFlutterProject`; an existing session with the same `projectPath`
is returned as `already_running` with its sessionId and pid and nothing is
spawned; otherwise an invalid `target` throws, and on success a fresh
`sessionId` is tracked. -/
def flutterRun (m : FMap) (cwd : String) (deviceId : Option String)
    (target : Option String) (projectCheck : Except String Unit) (newPid : Nat)
    (sessionId : String) : FlutterOutcome :=
  match projectCheck with
  | .error e => ⟨.error e, m, false⟩
  | .ok () =>
    match m.find? (fun e => e.2.projectPath = cwd) with
    | some e => ⟨.ok ⟨e.1, some e.2.pid, .already_running⟩, m, false⟩
    | none =>
      if (match target with
          | some t => !jsEndsWith t ".dart"
          | none => false) then
        ⟨.error ("Target must be a .dart file. Invalid target: " ++ (target.getD "")), m, false⟩
      else
        ⟨.ok ⟨sessionId, some newPid, .started⟩,
          mapSet m sessionId ⟨newPid, deviceId.getD "default", cwd⟩, true⟩

/-- `flutter_stop_session` handler (src/tools/flutter.ts lines 413–468):
`killOk` is whether `process.kill(session.pid, 'SIGTERM')` returns without
throwing. -/
def flutterStopSession (m : FMap) (sessionId : String) (killOk : Bool) : FlutterOutcome :=
  match mapGet m sessionId with
  | none =>
    ⟨.error ("Flutter run session not found. No active session found with ID: " ++ sessionId), m, false⟩
  | some s =>
    if killOk then
      ⟨.ok ⟨sessionId, some s.pid, .stopped⟩, mapDelete m sessionId, false⟩
    else
      ⟨.ok ⟨sessionId, some s.pid, .already_stopped⟩, mapDelete m sessionId, false⟩

/-- `flutter_list_sessions` handler (src/tools/flutter.ts lines 470–493):
the entries of `runningFlutterSessions` in insertion order. -/
def flutterListSessions (m : FMap) : List (String × FlutterSession) := m

/-- The `activeProcesses` field of the `health_check` handler
(src/server.ts lines 53–78): `Array.from(globalProcessMap.entries())`. -/
def healthCheckActiveProcesses (globalMap : PMap) : List (String × Nat) := globalMap

/-- The server's tracking state (src/server.ts): `globalProcessMap` is
created once and passed to `createAndroidTools` and `createIOSTools`, which
alias it as `runningEmulators` and `activeRecordings`;
`createFlutterTools(globalProcessMap)` receives the same map but ignores its
parameter and initializes `runningFlutterSessions = new Map()`
(src/tools/flutter.ts lines 70–72), so Flutter sessions live in a separate
map. -/
structure ServerState where
  globalProcessMap : PMap
  runningFlutterSessions : FMap
deriving Repr

/-- A `flutter_run` call as wired in src/server.ts: it reads and writes only
the module-level `runningFlutterSessions`, never `globalProcessMap`. -/
def serverFlutterRun (st : ServerState) (cwd : String) (deviceId target : Option String)
    (projectCheck : Except String Unit) (newPid : Nat) (sessionId : String) :
    ServerState × FlutterOutcome :=
  let out := flutterRun st.runningFlutterSessions cwd deviceId target projectCheck newPid sessionId
  (⟨st.globalProcessMap, out.map⟩, out)

/-- A stdout payload one byte larger than the default 10 MB cap. -/
def bigChunk : String := ⟨List.replicate (10 * 1024 * 1024 + 1) 'a'⟩

/-! ## Theorems -/

/-- C2: for every command string not a member of the allowed-command set and
for every argument list, `validateCommand` fails with the
"not allowed" `CommandRejected` error; it never succeeds for a
non-allowlisted command regardless of the arguments. -/
theorem claim_C2_nonallowlisted_always_rejected (cfg : SecurityConfig)
    (command : String) (args : List String)
    (h : cfg.allowedCommands.contains command = false) :
    validateCommand cfg command args =
      .error ("Command '" ++ command ++ "' is not allowed") := by
  simp only [validateCommand, h, Bool.not_false, if_true]

/-- Witness for C2 at command `rm` (not allowlisted) with a nonempty
argument list. -/
theorem claim_C2_witness :
    DEFAULT_SECURITY_CONFIG.allowedCommands.contains "rm" = false ∧
    validateCommand DEFAULT_SECURITY_CONFIG "rm" ["-rf"] =
      .error ("Command '" ++ "rm" ++ "' is not allowed") :=
  ⟨by decide, claim_C2_nonallowlisted_always_rejected _ _ _ (by decide)⟩

/-- C3: for every allowed command and argument list whose space-joined form
matches at least one denylisted regex, `validateCommand` fails with the
"dangerous pattern" `CommandRejected` error naming the matched pattern. -/
theorem claim_C3_dangerous_pattern_rejected (cfg : SecurityConfig)
    (command : String) (args : List String)
    (hallow : cfg.allowedCommands.contains command = true)
    (hmatch : DANGEROUS_PATTERNS.any
      (fun p => p.test (String.intercalate " " (command :: args))) = true) :
    ∃ p ∈ DANGEROUS_PATTERNS,
      validateCommand cfg command args =
        .error ("Command contains dangerous pattern: " ++ p.src) := by
  have hsome : (DANGEROUS_PATTERNS.find?
      (fun p => p.test (String.intercalate " " (command :: args)))).isSome := by
    rw [List.find?_isSome]
    simpa using List.any_eq_true.mp hmatch
  obtain ⟨p, hp⟩ := Option.isSome_iff_exists.mp hsome
  refine ⟨p, List.mem_of_find?_eq_some hp, ?_⟩
  have hmem : command ∈ cfg.allowedCommands := by simpa using hallow
  simp [validateCommand, hmem, hp]

/-- Witness for C3: allowed command `ls` with the injection-style argument
`a; rm -rf /`. -/
theorem claim_C3_witness :
    DEFAULT_SECURITY_CONFIG.allowedCommands.contains "ls" = true ∧
    DANGEROUS_PATTERNS.any
      (fun p => p.test (String.intercalate " " ("ls" :: ["a; rm -rf /"]))) = true ∧
    ∃ p ∈ DANGEROUS_PATTERNS,
      validateCommand DEFAULT_SECURITY_CONFIG "ls" ["a; rm -rf /"] =
        .error ("Command contains dangerous pattern: " ++ p.src) :=
  ⟨by decide, by decide,
    claim_C3_dangerous_pattern_rejected _ _ _ (by decide) (by decide)⟩

/-- C6: when the spawn layer signals that the subprocess exceeded its
allotted time (a rejection whose message contains `timeout`, per the
`Timeout` condition of the spec), a validated `execute` call fails with the
timeout error carrying the configured timeout value
(`options.timeout || maxExecutionTime`), not an ordinary result. -/
theorem claim_C6_timeout_throws_with_configured_value (cfg : SecurityConfig)
    (command : String) (args : List String) (options : ExecOptions)
    (msg : String) (duration : Nat)
    (hv : validateAll cfg command args options.cwd = .ok ())
    (ht : jsIncludes msg "timeout" = true) :
    execute cfg command args options (.rejected msg) duration =
      ⟨.error ("Command timed out after " ++
        toString (jsOrDefault options.timeout cfg.maxExecutionTime) ++ "ms"), true⟩ := by
  simp [execute, hv, executeCatch, ht]

/-- Witness for C6: `which adb` with a 500 ms timeout and a timeout
rejection from the spawn layer. -/
theorem claim_C6_witness :
    validateAll DEFAULT_SECURITY_CONFIG "which" ["adb"] none = .ok () ∧
    jsIncludes "spawn timeout exceeded" "timeout" = true ∧
    execute DEFAULT_SECURITY_CONFIG "which" ["adb"] { timeout := some 500 }
        (.rejected "spawn timeout exceeded") 7 =
      ⟨.error ("Command timed out after " ++
        toString (jsOrDefault (some 500) DEFAULT_SECURITY_CONFIG.maxExecutionTime) ++ "ms"), true⟩ :=
  ⟨by rfl, by decide,
    claim_C6_timeout_throws_with_configured_value _ _ _ _ _ _ (by rfl) (by decide)⟩

/-- C7: when validation passes and the subprocess runs to completion with a
non-zero exit code, `execute` does not throw: it returns an ordinary
`CommandResult` whose `exitCode` is that non-zero code (truncation caps the
captured streams). -/
theorem claim_C7_nonzero_exit_is_data (cfg : SecurityConfig) (command : String)
    (args : List String) (options : ExecOptions) (out err : String)
    (code : Int) (duration : Nat)
    (hv : validateAll cfg command args options.cwd = .ok ())
    (hc : code ≠ 0) :
    execute cfg command args options (.resolved out err code) duration =
      ⟨.ok ⟨truncateTo (jsOrDefault options.maxOutputSize cfg.maxOutputSize) out,
            truncateTo (jsOrDefault options.maxOutputSize cfg.maxOutputSize) err,
            code, duration⟩, true⟩ ∧
    code ≠ 0 := by
  refine ⟨?_, hc⟩
  simp [execute, hv]

/-! ### Association-map lemmas -/

/-- A key absent from the key list is not found. -/
theorem mapGet_eq_none_of_not_mem {α : Type} (m : List (String × α)) (k : String)
    (h : k ∉ m.map Prod.fst) : mapGet m k = none := by
  induction m with
  | nil => rfl
  | cons e rest ih =>
    obtain ⟨k', v⟩ := e
    simp only [List.map_cons, List.mem_cons] at h
    push_neg at h
    have hk : k' ≠ k := fun he => h.1 he.symm
    simp only [mapGet, if_neg hk]
    exact ih h.2

/-- `delete` yields a sublist of the original entry list. -/
theorem mapDelete_sublist {α : Type} (m : List (String × α)) (k : String) :
    List.Sublist (mapDelete m k) m := by
  induction m with
  | nil => simp [mapDelete]
  | cons e rest ih =>
    obtain ⟨k', v⟩ := e
    simp only [mapDelete]
    split
    · exact List.sublist_cons_self _ _
    · exact List.Sublist.cons₂ _ ih

/-- With duplicate-free keys, a deleted key is no longer found. -/
theorem mapGet_delete_self {α : Type} (m : List (String × α)) (k : String)
    (h : (m.map Prod.fst).Nodup) : mapGet (mapDelete m k) k = none := by
  induction m with
  | nil => rfl
  | cons e rest ih =>
    obtain ⟨k', v⟩ := e
    simp only [List.map_cons, List.nodup_cons] at h
    by_cases hk : k' = k
    · subst hk
      simp only [mapDelete, if_pos rfl]
      exact mapGet_eq_none_of_not_mem _ _ h.1
    · simp only [mapDelete, if_neg hk, mapGet, if_neg hk]
      exact ih h.2

/-- Any key of `set`'s result is the new key or an old key. -/
theorem mem_keys_mapSet {α : Type} (m : List (String × α)) (k x : String) (v : α)
    (h : x ∈ (mapSet m k v).map Prod.fst) : x = k ∨ x ∈ m.map Prod.fst := by
  induction m with
  | nil => simpa [mapSet] using h
  | cons e rest ih =>
    obtain ⟨k', v'⟩ := e
    by_cases hk : k' = k
    · subst hk
      simpa [mapSet] using h
    · simp only [mapSet, if_neg hk, List.map_cons, List.mem_cons] at h
      rcases h with h | h
      · exact Or.inr (by simp [h])
      · rcases ih h with h' | h'
        · exact Or.inl h'
        · exact Or.inr (by simp [h'])

/-- `set` preserves duplicate-freeness of the key list — the "at most one
pid per key" invariant survives every `track`. -/
theorem mapSet_keys_nodup {α : Type} (m : List (String × α)) (k : String) (v : α)
    (h : (m.map Prod.fst).Nodup) : ((mapSet m k v).map Prod.fst).Nodup := by
  induction m with
  | nil => simp [mapSet]
  | cons e rest ih =>
    obtain ⟨k', v'⟩ := e
    simp only [List.map_cons, List.nodup_cons] at h
    by_cases hk : k' = k
    · subst hk
      simpa [mapSet] using h
    · simp only [mapSet, if_neg hk, List.map_cons, List.nodup_cons]
      refine ⟨fun hmem => ?_, ih h.2⟩
      rcases mem_keys_mapSet rest k k' v hmem with h' | h'
      · exact hk h'
      · exact h.1 h'

/-- `delete` preserves duplicate-freeness of the key list. -/
theorem mapDelete_keys_nodup {α : Type} (m : List (String × α)) (k : String)
    (h : (m.map Prod.fst).Nodup) : ((mapDelete m k).map Prod.fst).Nodup :=
  List.Nodup.sublist (List.Sublist.map Prod.fst (mapDelete_sublist m k)) h

/-- C1 counterexample: with allowed command `flutter doctor` and
`options.cwd = "../x"`, `validatePath` rejects (so no subprocess is
spawned), but `execute` does not throw the validation error — the message
"Directory traversal attempt detected" contains neither `not allowed` nor
`dangerous`, so the catch block converts it into an ordinary result with
`exitCode = 1`. -/
theorem claim_C1_counterexample :
    validateAll DEFAULT_SECURITY_CONFIG "flutter" ["doctor"] (some "../x") =
      .error "Directory traversal attempt detected" ∧
    execute DEFAULT_SECURITY_CONFIG "flutter" ["doctor"] { cwd := some "../x" }
        (.resolved "" "" 0) 5 =
      ⟨.ok ⟨"", "Directory traversal attempt detected", 1, 5⟩, false⟩ := by
  exact ⟨rfl, rfl⟩

/-- C1 (amended): whenever `validateCommand` or `validatePath` rejects, no
subprocess is spawned; the rejection is rethrown to the caller exactly when
its message contains `not allowed` or `dangerous` (and neither `timeout`
nor `killed`), while any other rejection — in particular the
`options.cwd` path-traversal rejection — is swallowed into an ordinary
result with `exitCode = 1` and the message in `stderr`. -/
theorem claim_C1_amended_rejection_before_spawn (cfg : SecurityConfig)
    (command : String) (args : List String) (options : ExecOptions)
    (world : SpawnWorld) (duration : Nat) (msg : String)
    (h : validateAll cfg command args options.cwd = .error msg) :
    (execute cfg command args options world duration).spawned = false ∧
    (jsIncludes msg "timeout" = false → jsIncludes msg "killed" = false →
      (jsIncludes msg "not allowed" || jsIncludes msg "dangerous") = true →
      (execute cfg command args options world duration).result = .error msg) ∧
    (jsIncludes msg "timeout" = false → jsIncludes msg "killed" = false →
      (jsIncludes msg "not allowed" || jsIncludes msg "dangerous") = false →
      (execute cfg command args options world duration).result =
        .ok ⟨"", msg, 1, duration⟩) := by
  refine ⟨by simp [execute, h], ?_, ?_⟩
  · intro h1 h2 h3
    simp [execute, h, executeCatch, h1, h2, h3]
  · intro h1 h2 h3
    simp [execute, h, executeCatch, h1, h2, h3]

/-- Witness for C1 (amended), at two rejection inputs: the `cwd` traversal
rejection is swallowed into an `exitCode = 1` result without a spawn, and
the allowlist rejection of `rm -rf` is rethrown without a spawn. -/
theorem claim_C1_witness :
    (validateAll DEFAULT_SECURITY_CONFIG "flutter" ["doctor"] (some "../x") =
      .error "Directory traversal attempt detected" ∧
     (execute DEFAULT_SECURITY_CONFIG "flutter" ["doctor"] { cwd := some "../x" }
        (.resolved "ignored" "" 0) 5).spawned = false ∧
     (execute DEFAULT_SECURITY_CONFIG "flutter" ["doctor"] { cwd := some "../x" }
        (.resolved "ignored" "" 0) 5).result =
       .ok ⟨"", "Directory traversal attempt detected", 1, 5⟩) ∧
    (validateAll DEFAULT_SECURITY_CONFIG "rm" ["-rf", "/tmp/x"] none =
      .error "Command 'rm' is not allowed" ∧
     (execute DEFAULT_SECURITY_CONFIG "rm" ["-rf", "/tmp/x"] {}
        (.resolved "ignored" "" 0) 5).spawned = false ∧
     (execute DEFAULT_SECURITY_CONFIG "rm" ["-rf", "/tmp/x"] {}
        (.resolved "ignored" "" 0) 5).result =
       .error "Command 'rm' is not allowed") :=
  ⟨⟨by rfl,
    (claim_C1_amended_rejection_before_spawn _ _ _ _ _ _ _ (by rfl)).1,
    (claim_C1_amended_rejection_before_spawn _ _ _ _ _ _ _ (by rfl)).2.2
      (by decide) (by decide) (by decide)⟩,
   ⟨by rfl,
    (claim_C1_amended_rejection_before_spawn _ _ _ _ _ _ _ (by rfl)).1,
    (claim_C1_amended_rejection_before_spawn _ _ _ _ _ _ _ (by rfl)).2.1
      (by decide) (by decide) (by decide)⟩⟩

/-- Helper: `truncateTo` caps the string length. -/
theorem truncateTo_length_le (n : Nat) (s : String) : (truncateTo n s).length ≤ n := by
  show (s.data.take n).length ≤ n
  rw [List.length_take]
  exact Nat.min_le_left _ _

/-- C5 counterexample: `executeStream` accumulates stream chunks without any
size cap, so a single chunk larger than the configured
`maxOutputSize` (10 MB default) is returned in full, exceeding the bound
the claim asserts for both executor entry points. -/
theorem claim_C5_counterexample :
    executeStream DEFAULT_SECURITY_CONFIG "flutter" ["doctor"] {}
        [⟨true, bigChunk⟩] (.resolved "" "" 0) 5 =
      .ok ⟨bigChunk, "", 0, 5⟩ ∧
    DEFAULT_SECURITY_CONFIG.maxOutputSize < bigChunk.length := by
  constructor
  · rfl
  · show DEFAULT_SECURITY_CONFIG.maxOutputSize < (List.replicate (10 * 1024 * 1024 + 1) 'a').length
    rw [List.length_replicate]
    decide

/-- C5 (amended): for `execute` the bound holds — a resolved subprocess
result is truncated to `options.maxOutputSize || maxOutputSize` on both
streams; `executeStream` enforces no bound. -/
theorem claim_C5_amended_execute_output_capped (cfg : SecurityConfig)
    (command : String) (args : List String) (options : ExecOptions)
    (out err : String) (code : Int) (duration : Nat)
    (hv : validateAll cfg command args options.cwd = .ok ()) :
    ∃ r, (execute cfg command args options (.resolved out err code) duration).result = .ok r ∧
      r.stdout.length ≤ jsOrDefault options.maxOutputSize cfg.maxOutputSize ∧
      r.stderr.length ≤ jsOrDefault options.maxOutputSize cfg.maxOutputSize := by
  have hres : (execute cfg command args options (.resolved out err code) duration).result =
      .ok ⟨truncateTo (jsOrDefault options.maxOutputSize cfg.maxOutputSize) out,
           truncateTo (jsOrDefault options.maxOutputSize cfg.maxOutputSize) err,
           code, duration⟩ := by
    simp [execute, hv]
  exact ⟨_, hres, truncateTo_length_le _ _, truncateTo_length_le _ _⟩

/-- Witness for C5 (amended): a `which adb` call whose raw stdout is the
oversized chunk still yields a capped result. -/
theorem claim_C5_witness :
    validateAll DEFAULT_SECURITY_CONFIG "which" ["adb"] none = .ok () ∧
    ∃ r, (execute DEFAULT_SECURITY_CONFIG "which" ["adb"] {}
        (.resolved bigChunk "" 0) 3).result = .ok r ∧
      r.stdout.length ≤ jsOrDefault none DEFAULT_SECURITY_CONFIG.maxOutputSize ∧
      r.stderr.length ≤ jsOrDefault none DEFAULT_SECURITY_CONFIG.maxOutputSize :=
  ⟨by rfl, claim_C5_amended_execute_output_capped _ _ _ _ _ _ _ _ (by rfl)⟩

/-- C8: stopping a tracked key whose process already exited externally
(`process.kill` throws) returns a success response with status
`already_stopped` rather than throwing, and the key is removed from the
tracking map — for the emulator stop handler and the Flutter session stop
handler alike. -/
theorem claim_C8_stop_already_dead_is_success (m : PMap) (fm : FMap)
    (avdName sessionId : String) (pid : Nat) (s : FlutterSession)
    (hA : mapGet m avdName = some pid) (hpid : pid ≠ 0)
    (hNodup : (m.map Prod.fst).Nodup)
    (hF : mapGet fm sessionId = some s)
    (hNodupF : (fm.map Prod.fst).Nodup) :
    androidStopEmulator m avdName false =
      ⟨.ok ⟨avdName, some pid, .already_stopped⟩, mapDelete m avdName, false⟩ ∧
    mapHas (mapDelete m avdName) avdName = false ∧
    flutterStopSession fm sessionId false =
      ⟨.ok ⟨sessionId, some s.pid, .already_stopped⟩, mapDelete fm sessionId, false⟩ ∧
    mapHas (mapDelete fm sessionId) sessionId = false := by
  refine ⟨?_, ?_, ?_, ?_⟩
  · simp [androidStopEmulator, hA, hpid]
  · simp [mapHas, mapGet_delete_self m avdName hNodup]
  · simp [flutterStopSession, hF]
  · simp [mapHas, mapGet_delete_self fm sessionId hNodupF]

/-- Witness for C8: one dead emulator (`Pixel_7`, pid 11) and one dead
Flutter session (`s1`, pid 5). -/
theorem claim_C8_witness :
    mapGet [("Pixel_7", 11)] "Pixel_7" = some 11 ∧ (11 : Nat) ≠ 0 ∧
    mapGet [("s1", (⟨5, "d", "/p"⟩ : FlutterSession))] "s1" = some ⟨5, "d", "/p"⟩ ∧
    (androidStopEmulator [("Pixel_7", 11)] "Pixel_7" false =
      ⟨.ok ⟨"Pixel_7", some 11, .already_stopped⟩, mapDelete [("Pixel_7", 11)] "Pixel_7", false⟩ ∧
     mapHas (mapDelete [("Pixel_7", 11)] "Pixel_7") "Pixel_7" = false ∧
     flutterStopSession [("s1", ⟨5, "d", "/p"⟩)] "s1" false =
      ⟨.ok ⟨"s1", some 5, .already_stopped⟩, mapDelete [("s1", (⟨5, "d", "/p"⟩ : FlutterSession))] "s1", false⟩ ∧
     mapHas (mapDelete [("s1", (⟨5, "d", "/p"⟩ : FlutterSession))] "s1") "s1" = false) :=
  ⟨by rfl, by decide, by rfl,
   claim_C8_stop_already_dead_is_success [("Pixel_7", 11)] [("s1", ⟨5, "d", "/p"⟩)]
     "Pixel_7" "s1" 11 ⟨5, "d", "/p"⟩ (by rfl) (by decide)
     (by decide) (by rfl) (by decide)⟩

/-- C9: the `health_check` snapshot reads only `globalProcessMap`, but
`createFlutterTools` ignores the injected shared map and tracks sessions in
its own module-level map — so after a `flutter_run` spawns and tracks a
session, `flutter_list_sessions` shows it while `health_check`'s
`activeProcesses` is still empty, contradicting the claim that the snapshot
covers Flutter development sessions. -/
theorem claim_C9_flutter_sessions_invisible_to_health_check :
    (serverFlutterRun ⟨[], []⟩ "/app" none none (.ok ()) 4242 "flutter_1_abc").2.spawned = true ∧
    flutterListSessions
        (serverFlutterRun ⟨[], []⟩ "/app" none none (.ok ()) 4242 "flutter_1_abc").1.runningFlutterSessions =
      [("flutter_1_abc", ⟨4242, "default", "/app"⟩)] ∧
    healthCheckActiveProcesses
        (serverFlutterRun ⟨[], []⟩ "/app" none none (.ok ()) 4242 "flutter_1_abc").1.globalProcessMap =
      [] := by
  exact ⟨rfl, rfl, rfl⟩

/-- Witness for C7: `flutter analyze` exiting with code 1. -/
theorem claim_C7_witness :
    validateAll DEFAULT_SECURITY_CONFIG "flutter" ["analyze"] none = .ok () ∧
    (1 : Int) ≠ 0 ∧
    execute DEFAULT_SECURITY_CONFIG "flutter" ["analyze"] {}
        (.resolved "issues found" "" 1) 9 =
      ⟨.ok ⟨truncateTo (jsOrDefault none DEFAULT_SECURITY_CONFIG.maxOutputSize) "issues found",
            truncateTo (jsOrDefault none DEFAULT_SECURITY_CONFIG.maxOutputSize) "",
            1, 9⟩, true⟩ :=
  ⟨by rfl, by decide,
    (claim_C7_nonzero_exit_is_data _ _ _ _ _ _ _ _ (by rfl) (by decide)).1⟩

/-- C4 counterexample: starting a simulator recording whose UDID is already
tracked throws "Recording already active …" — an error response, not the
non-error `already running` response the claim asserts for every start
operation (no new process is spawned, though). -/
theorem claim_C4_counterexample :
    iosRecordVideo true [("ABCDEF01-1234-5678-9ABC-DEF012345678", 42)]
        "ABCDEF01-1234-5678-9ABC-DEF012345678" "/tmp/v.mov" 30 "/tmp/v.mov" ".mov" true 99 =
      ⟨.error "Recording already active for this simulator. Active recording PID: 42",
       [("ABCDEF01-1234-5678-9ABC-DEF012345678", 42)], false⟩ := by
  rfl

/-- C4 (amended): at most one pid is tracked per key (the key lists stay
duplicate-free under `set`), and a start on an already-tracked key never
spawns a second process and leaves the map unchanged; the emulator start
and the Flutter run report this as a non-error `already running` response
carrying the existing pid, while the simulator recording start reports it
as a thrown "Recording already active" error naming the existing pid. -/
theorem claim_C4_amended_one_pid_per_key (m : PMap) (fm : FMap)
    (avdName udid cwd vp np ext sid : String) (dur : Nat) (mk : Bool)
    (dev tgt : Option String) (e : String × FlutterSession)
    (newPid1 newPid2 newPid3 : Nat)
    (hA : mapHas m avdName = true)
    (hU : validateUDID udid = true)
    (hR : mapHas m udid = true)
    (hF : fm.find? (fun x => x.2.projectPath = cwd) = some e)
    (hNodupP : (m.map Prod.fst).Nodup)
    (hNodupF : (fm.map Prod.fst).Nodup) :
    androidStartEmulator m avdName newPid1 =
      ⟨.ok ⟨avdName, mapGet m avdName, .already_running⟩, m, false⟩ ∧
    flutterRun fm cwd dev tgt (.ok ()) newPid2 sid =
      ⟨.ok ⟨e.1, some e.2.pid, .already_running⟩, fm, false⟩ ∧
    ((iosRecordVideo true m udid vp dur np ext mk newPid3).spawned = false ∧
     (iosRecordVideo true m udid vp dur np ext mk newPid3).map = m ∧
     (iosRecordVideo true m udid vp dur np ext mk newPid3).result =
       .error ("Recording already active for this simulator. Active recording PID: " ++
         jsNumOpt (mapGet m udid))) ∧
    (∀ (key : String) (pid : Nat), ((mapSet m key pid).map Prod.fst).Nodup) ∧
    (∀ (key : String) (sess : FlutterSession), ((mapSet fm key sess).map Prod.fst).Nodup) := by
  refine ⟨?_, ?_, ⟨?_, ?_, ?_⟩, ?_, ?_⟩
  · simp [androidStartEmulator, hA]
  · simp [flutterRun, hF]
  · simp [iosRecordVideo, hU, hR]
  · simp [iosRecordVideo, hU, hR]
  · simp [iosRecordVideo, hU, hR]
  · intro key pid
    exact mapSet_keys_nodup _ _ _ hNodupP
  · intro key sess
    exact mapSet_keys_nodup _ _ _ hNodupF

/-- Witness for C4 (amended): a map tracking emulator `Pixel_7` (pid 11) and
a recording on a tracked UDID (pid 42), and a session map with one session
for project `/p` (pid 5). -/
theorem claim_C4_witness :
    mapHas [("Pixel_7", 11), ("ABCDEF01-1234-5678-9ABC-DEF012345678", 42)] "Pixel_7" = true ∧
    validateUDID "ABCDEF01-1234-5678-9ABC-DEF012345678" = true ∧
    mapHas [("Pixel_7", 11), ("ABCDEF01-1234-5678-9ABC-DEF012345678", 42)]
      "ABCDEF01-1234-5678-9ABC-DEF012345678" = true ∧
    ([("s1", (⟨5, "d", "/p"⟩ : FlutterSession))].find?
      (fun x => x.2.projectPath = "/p")) = some ("s1", ⟨5, "d", "/p"⟩) ∧
    (androidStartEmulator [("Pixel_7", 11), ("ABCDEF01-1234-5678-9ABC-DEF012345678", 42)] "Pixel_7" 7 =
      ⟨.ok ⟨"Pixel_7", mapGet [("Pixel_7", 11), ("ABCDEF01-1234-5678-9ABC-DEF012345678", 42)] "Pixel_7",
        .already_running⟩, [("Pixel_7", 11), ("ABCDEF01-1234-5678-9ABC-DEF012345678", 42)], false⟩ ∧
     flutterRun [("s1", ⟨5, "d", "/p"⟩)] "/p" none none (.ok ()) 8 "s2" =
      ⟨.ok ⟨"s1", some 5, .already_running⟩, [("s1", ⟨5, "d", "/p"⟩)], false⟩ ∧
     ((iosRecordVideo true [("Pixel_7", 11), ("ABCDEF01-1234-5678-9ABC-DEF012345678", 42)]
         "ABCDEF01-1234-5678-9ABC-DEF012345678" "/tmp/v.mov" 30 "/tmp/v.mov" ".mov" true 9).spawned = false ∧
      (iosRecordVideo true [("Pixel_7", 11), ("ABCDEF01-1234-5678-9ABC-DEF012345678", 42)]
         "ABCDEF01-1234-5678-9ABC-DEF012345678" "/tmp/v.mov" 30 "/tmp/v.mov" ".mov" true 9).map =
        [("Pixel_7", 11), ("ABCDEF01-1234-5678-9ABC-DEF012345678", 42)] ∧
      (iosRecordVideo true [("Pixel_7", 11), ("ABCDEF01-1234-5678-9ABC-DEF012345678", 42)]
         "ABCDEF01-1234-5678-9ABC-DEF012345678" "/tmp/v.mov" 30 "/tmp/v.mov" ".mov" true 9).result =
        .error ("Recording already active for this simulator. Active recording PID: " ++
          jsNumOpt (mapGet [("Pixel_7", 11), ("ABCDEF01-1234-5678-9ABC-DEF012345678", 42)]
            "ABCDEF01-1234-5678-9ABC-DEF012345678"))) ∧
     (∀ (key : String) (pid : Nat),
       ((mapSet [("Pixel_7", 11), ("ABCDEF01-1234-5678-9ABC-DEF012345678", 42)] key pid).map Prod.fst).Nodup) ∧
     (∀ (key : String) (sess : FlutterSession),
       ((mapSet [("s1", (⟨5, "d", "/p"⟩ : FlutterSession))] key sess).map Prod.fst).Nodup)) :=
  ⟨by decide, by decide, by decide, by rfl,
   claim_C4_amended_one_pid_per_key
     [("Pixel_7", 11), ("ABCDEF01-1234-5678-9ABC-DEF012345678", 42)]
     [("s1", ⟨5, "d", "/p"⟩)] "Pixel_7" "ABCDEF01-1234-5678-9ABC-DEF012345678"
     "/p" "/tmp/v.mov" "/tmp/v.mov" ".mov" "s2" 30 true none none
     ("s1", ⟨5, "d", "/p"⟩) 7 8 9
     (by decide) (by decide) (by decide) (by rfl) (by decide) (by decide)⟩

/-! ### sanitizePath lemmas -/

/-- `hasSubstr` decides the list-infix relation. -/
theorem hasSubstr_iff (l sub : List Char) : hasSubstr l sub = true ↔ sub <:+: l := by
  simp only [hasSubstr, List.any_eq_true]
  constructor
  · rintro ⟨t, htl, hpre⟩
    exact List.infix_iff_prefix_suffix.mpr
      ⟨t, List.isPrefixOf_iff_prefix.mp hpre, (List.mem_tails _ _).mp htl⟩
  · intro h
    obtain ⟨t, hp, hs⟩ := List.infix_iff_prefix_suffix.mp h
    exact ⟨t, (List.mem_tails _ _).mpr hs, List.isPrefixOf_iff_prefix.mpr hp⟩

/-- Negated form of `hasSubstr_iff`. -/
theorem hasSubstr_eq_false_iff (l sub : List Char) :
    hasSubstr l sub = false ↔ ¬ (sub <:+: l) := by
  rw [Bool.eq_false_iff]
  exact not_congr (hasSubstr_iff l sub)

/-- A two-element list is not an infix of a shorter list. -/
theorem pair_not_infix_short (a b x : Char) :
    ¬ ([a, b] <:+: [x]) ∧ ¬ ([a, b] <:+: ([] : List Char)) := by
  constructor <;> intro h <;> simpa using h.length_le

/-- Conditional unfolding of `removeDotDot` outside a `..` match. -/
theorem removeDotDot_cons_not_dotdot (c : Char) (l : List Char)
    (h : ∀ t, ¬ (c = '.' ∧ l = '.' :: t)) :
    removeDotDot (c :: l) = c :: removeDotDot l := by
  rw [removeDotDot.eq_def]
  split
  · rename_i rest heq
    injection heq with h1 h2
    exact absurd ⟨h1, h2⟩ (h rest)
  · rename_i c' rest heq
    injection heq with h1 h2
    rw [h1, h2]
  · rename_i heq
    exact absurd heq (List.cons_ne_nil _ _)

/-- The output of `removeDotDot` never contains two consecutive dots. -/
theorem removeDotDot_no_dotdot (l : List Char) :
    ¬ (['.', '.'] <:+: removeDotDot l) := by
  induction l using removeDotDot.induct with
  | case1 rest ih => exact ih
  | case2 c rest hexcl ih =>
    have hside : ∀ t, ¬ (c = '.' ∧ rest = '.' :: t) := by
      intro t ⟨h1, h2⟩
      exact hexcl t h1 h2
    rw [removeDotDot_cons_not_dotdot c rest hside]
    intro hinf
    rcases List.infix_cons_iff.mp hinf with hpre | hinf'
    · obtain ⟨t, ht⟩ := hpre
      injection ht with h1 h2
      cases rest with
      | nil => exact absurd h2 (by simp [removeDotDot])
      | cons d t'' =>
        have hd : d ≠ '.' := by
          intro hdd
          exact hexcl t'' h1.symm (by rw [hdd])
        have : removeDotDot (d :: t'') = d :: removeDotDot t'' :=
          removeDotDot_cons_not_dotdot d t'' (fun t' ⟨hc, _⟩ => hd hc)
        rw [this] at h2
        injection h2 with h2a _
        exact hd h2a.symm
    · exact ih hinf'
  | case3 => exact (pair_not_infix_short '.' '.' ' ').2

/-- `removeDotDot` is the identity on strings without two consecutive dots. -/
theorem removeDotDot_eq_self (l : List Char) (h : ¬ (['.', '.'] <:+: l)) :
    removeDotDot l = l := by
  induction l using removeDotDot.induct with
  | case1 rest ih =>
    exact absurd (List.IsPrefix.isInfix ⟨rest, rfl⟩) h
  | case2 c rest hexcl ih =>
    have hside : ∀ t, ¬ (c = '.' ∧ rest = '.' :: t) := by
      intro t ⟨h1, h2⟩
      exact hexcl t h1 h2
    rw [removeDotDot_cons_not_dotdot c rest hside]
    rw [ih (fun hc => h (List.infix_cons hc))]
  | case3 => rfl

/-- Unfolding of `collapseSlashes` at the empty and singleton lists. -/
theorem collapseSlashes_nil_single (c : Char) :
    collapseSlashes [] = [] ∧ collapseSlashes [c] = [c] := by
  constructor <;> rw [collapseSlashes.eq_def]

/-- Unfolding of `collapseSlashes` on a double slash. -/
theorem collapseSlashes_cons2_pos (x y : Char) (t : List Char)
    (h : x = '/' ∧ y = '/') :
    collapseSlashes (x :: y :: t) = collapseSlashes (y :: t) := by
  rw [collapseSlashes.eq_def]
  simp [h.1, h.2]

/-- Unfolding of `collapseSlashes` outside a double slash. -/
theorem collapseSlashes_cons2_neg (x y : Char) (t : List Char)
    (h : ¬ (x = '/' ∧ y = '/')) :
    collapseSlashes (x :: y :: t) = x :: collapseSlashes (y :: t) := by
  rw [collapseSlashes.eq_def]
  have : (decide (x = '/') && decide (y = '/')) = false := by
    rcases Decidable.not_and_iff_or_not.mp h with h' | h' <;> simp [h']
  simp [this]

/-- `collapseSlashes` preserves the head character. -/
theorem collapseSlashes_cons_head (xs : List Char) (x : Char) :
    ∃ t, collapseSlashes (x :: xs) = x :: t := by
  induction xs generalizing x with
  | nil => exact ⟨[], (collapseSlashes_nil_single x).2⟩
  | cons y t ih =>
    by_cases hxy : x = '/' ∧ y = '/'
    · obtain ⟨t', ht'⟩ := ih y
      refine ⟨t', ?_⟩
      rw [collapseSlashes_cons2_pos _ _ _ hxy, ht', hxy.1, hxy.2]
    · exact ⟨collapseSlashes (y :: t), collapseSlashes_cons2_neg _ _ _ hxy⟩

/-- The output of `collapseSlashes` never contains two consecutive slashes. -/
theorem collapseSlashes_no_slashslash (l : List Char) :
    ¬ (['/', '/'] <:+: collapseSlashes l) := by
  induction l using collapseSlashes.induct with
  | case1 =>
    rw [(collapseSlashes_nil_single ' ').1]
    exact (pair_not_infix_short '/' '/' ' ').2
  | case2 c =>
    rw [(collapseSlashes_nil_single c).2]
    exact (pair_not_infix_short '/' '/' c).1
  | case3 c1 c2 rest hc ih =>
    have hc' : c1 = '/' ∧ c2 = '/' := by simpa using hc
    rw [collapseSlashes_cons2_pos _ _ _ hc']
    exact ih
  | case4 c1 c2 rest hc ih =>
    have hc' : ¬ (c1 = '/' ∧ c2 = '/') := by simpa using hc
    rw [collapseSlashes_cons2_neg _ _ _ hc']
    intro hinf
    rcases List.infix_cons_iff.mp hinf with hpre | hinf'
    · obtain ⟨t, ht⟩ := hpre
      injection ht with h1 h2
      obtain ⟨t', ht'⟩ := collapseSlashes_cons_head rest c2
      rw [ht'] at h2
      injection h2 with h2a _
      exact hc' ⟨h1.symm, h2a.symm⟩
    · exact ih hinf'

/-- `collapseSlashes` is the identity on strings without a double slash. -/
theorem collapseSlashes_eq_self (l : List Char) (h : ¬ (['/', '/'] <:+: l)) :
    collapseSlashes l = l := by
  induction l using collapseSlashes.induct with
  | case1 => exact (collapseSlashes_nil_single ' ').1
  | case2 c => exact (collapseSlashes_nil_single c).2
  | case3 c1 c2 rest hc ih =>
    have hc' : c1 = '/' ∧ c2 = '/' := by simpa using hc
    refine absurd (List.IsPrefix.isInfix ⟨rest, ?_⟩) h
    rw [hc'.1, hc'.2]
    rfl
  | case4 c1 c2 rest hc ih =>
    have hc' : ¬ (c1 = '/' ∧ c2 = '/') := by simpa using hc
    rw [collapseSlashes_cons2_neg _ _ _ hc']
    rw [ih (fun hinf => h (List.infix_cons hinf))]

/-- `collapseSlashes` cannot introduce two consecutive dots. -/
theorem collapseSlashes_preserves_no_dotdot (l : List Char)
    (h : ¬ (['.', '.'] <:+: l)) : ¬ (['.', '.'] <:+: collapseSlashes l) := by
  induction l using collapseSlashes.induct with
  | case1 =>
    rw [(collapseSlashes_nil_single ' ').1]
    exact (pair_not_infix_short '.' '.' ' ').2
  | case2 c =>
    rw [(collapseSlashes_nil_single c).2]
    exact (pair_not_infix_short '.' '.' c).1
  | case3 c1 c2 rest hc ih =>
    have hc' : c1 = '/' ∧ c2 = '/' := by simpa using hc
    rw [collapseSlashes_cons2_pos _ _ _ hc']
    exact ih (fun hinf => h (List.infix_cons hinf))
  | case4 c1 c2 rest hc ih =>
    have hc' : ¬ (c1 = '/' ∧ c2 = '/') := by simpa using hc
    rw [collapseSlashes_cons2_neg _ _ _ hc']
    intro hinf
    rcases List.infix_cons_iff.mp hinf with hpre | hinf'
    · obtain ⟨t, ht⟩ := hpre
      injection ht with h1 h2
      obtain ⟨t', ht'⟩ := collapseSlashes_cons_head rest c2
      rw [ht'] at h2
      injection h2 with h2a _
      refine h (List.IsPrefix.isInfix ⟨rest, ?_⟩)
      rw [← h1, ← h2a]
      rfl
    · exact ih (fun hinf => h (List.infix_cons hinf)) hinf'

/-- Dropping a prefix cannot introduce an infix. -/
theorem no_infix_dropWhile (sub l : List Char) (p : Char → Bool)
    (h : ¬ (sub <:+: l)) : ¬ (sub <:+: l.dropWhile p) :=
  fun hc => h (hc.trans (List.dropWhile_suffix p).isInfix)

/-- C10: `sanitizePath` is idempotent, and its output never contains `..`,
never contains `//`, and never starts with a slash. -/
theorem claim_C10_sanitizePath_idempotent_clean (p : String) :
    sanitizePath (sanitizePath p) = sanitizePath p ∧
    jsIncludes (sanitizePath p) ".." = false ∧
    jsIncludes (sanitizePath p) "//" = false ∧
    jsStartsWith (sanitizePath p) "/" = false := by
  have hdd1 : ¬ (['.', '.'] <:+: collapseSlashes (removeDotDot p.data)) :=
    collapseSlashes_preserves_no_dotdot _ (removeDotDot_no_dotdot p.data)
  have hdd : ¬ (['.', '.'] <:+:
      (collapseSlashes (removeDotDot p.data)).dropWhile (· = '/')) :=
    no_infix_dropWhile _ _ _ hdd1
  have hss : ¬ (['/', '/'] <:+:
      (collapseSlashes (removeDotDot p.data)).dropWhile (· = '/')) :=
    no_infix_dropWhile _ _ _ (collapseSlashes_no_slashslash (removeDotDot p.data))
  have hhead : ∀ x t,
      (collapseSlashes (removeDotDot p.data)).dropWhile (· = '/') = x :: t →
      x ≠ '/' := by
    intro x t hxt hx
    have h2 := List.head?_dropWhile_not (fun c => c = '/')
      (collapseSlashes (removeDotDot p.data))
    rw [hxt] at h2
    simp only [List.head?_cons] at h2
    rw [hx] at h2
    simp at h2
  refine ⟨?_, ?_, ?_, ?_⟩
  · show String.mk ((collapseSlashes (removeDotDot
      ((collapseSlashes (removeDotDot p.data)).dropWhile (· = '/')))).dropWhile (· = '/')) =
      String.mk ((collapseSlashes (removeDotDot p.data)).dropWhile (· = '/'))
    rw [removeDotDot_eq_self _ hdd, collapseSlashes_eq_self _ hss]
    rcases hR : (collapseSlashes (removeDotDot p.data)).dropWhile (· = '/') with _ | ⟨x, t⟩
    · rfl
    · have hx := hhead x t hR
      rw [List.dropWhile_cons_of_neg (by simpa using hx)]
  · show hasSubstr ((collapseSlashes (removeDotDot p.data)).dropWhile (· = '/'))
      ('.' :: '.' :: []) = false
    exact (hasSubstr_eq_false_iff _ _).mpr hdd
  · show hasSubstr ((collapseSlashes (removeDotDot p.data)).dropWhile (· = '/'))
      ('/' :: '/' :: []) = false
    exact (hasSubstr_eq_false_iff _ _).mpr hss
  · show List.isPrefixOf ('/' :: [])
      ((collapseSlashes (removeDotDot p.data)).dropWhile (· = '/')) = false
    rcases hR : (collapseSlashes (removeDotDot p.data)).dropWhile (· = '/') with _ | ⟨x, t⟩
    · rfl
    · have hx := hhead x t hR
      simp [List.isPrefixOf, Ne.symm hx]

end MCPMobile
